import Mathlib

/-!
Shallow embedding of maplibre-rs `src/maplibre/src/headless/map.rs` and of the
collaborator modules it uses.  The code of `HeadlessMap::new`, `render_tile`,
`fetch_tile` and `HeadlessPipelineProcessor::layer_tesselation_finished` is
translated line by line from the source file.  The collaborator modules
(coords, tile repository, tessellation pipeline, render graph, schedule,
buffer pool) are not part of the provided sources, so they are modelled from
the specification; each such definition says so in its doc comment.
Rust mutation is embedded as explicit state passing; a Rust panic
(`unwrap` / `expect`) is embedded as `Option.none`.
-/

namespace Maplibre

/-- Modelled from the spec: TileCoordinate, an integer (zoom, x, y) address in
the world tiling scheme (`coords.rs` is not in the sources).  `default` mirrors
WorldTileCoords::default(), the all-zero coordinate. -/
structure WorldTileCoords where
  x : Int
  y : Int
  z : Nat
deriving DecidableEq, Repr

def WorldTileCoords.default : WorldTileCoords := ⟨0, 0, 0⟩

/-- Modelled from the spec: continuous world coordinates, only stored as part
of the viewport (`coords.rs` is not in the sources). -/
structure WorldCoords where
  x : Rat
  y : Rat
deriving DecidableEq, Repr

def WorldCoords.from2 (x y : Rat) : WorldCoords := ⟨x, y⟩

/-- Modelled from the spec: the fixed tile size constant used for the initial
viewport centre. -/
def TILE_SIZE : Rat := 512

/-- Modelled from the spec: zoom level; only its default is used here. -/
structure Zoom where
  value : Rat
deriving DecidableEq, Repr

def Zoom.default : Zoom := ⟨0⟩

/-- Modelled from the spec: window size passed to map construction. -/
structure WindowSize where
  width : Nat
  height : Nat
deriving DecidableEq, Repr

/-- Modelled from the spec: RawLayer, a decoded-but-untessellated layer
consisting of a name and geometry (the wire-format decoder internals are a
black box; geometry is abstracted to a list of scalars). -/
structure RawLayer where
  name : String
  geometry : List Nat
deriving DecidableEq, Repr

/-- Modelled from the spec: a tessellated vertex/index buffer padded to a
fixed alignment boundary; the padded length and the logical length are both
preserved. -/
structure OverAlignedVertexBuffer where
  data : List Nat
  padded_length : Nat
deriving DecidableEq, Repr

/-- Modelled from the spec: the fixed alignment boundary of the tessellator. -/
def BUFFER_ALIGNMENT : Nat := 4

/-- Modelled from the spec: tessellation of decoded geometry into a padded
vertex/index buffer together with the feature-index mapping (one entry per
emitted triangle, pointing back to the source feature).  Deterministic in its
input. -/
def tessellate (geometry : List Nat) : OverAlignedVertexBuffer × List Nat :=
  (⟨geometry, BUFFER_ALIGNMENT * ((geometry.length + BUFFER_ALIGNMENT - 1) / BUFFER_ALIGNMENT)⟩,
   List.range geometry.length)

/-- Modelled from the spec: TileStatus of a stored tile. -/
inductive TileStatus where
  | Pending
  | Success
  | Failed
deriving DecidableEq, Repr

/-- StoredLayer as constructed in `layer_tesselation_finished` (the enum lives
in `tile_repository.rs`, not in the sources; its `TessellatedLayer` variant and
field names are taken from the construction site in `map.rs`). -/
inductive StoredLayer where
  | TessellatedLayer (coords : WorldTileCoords) (layer_name : String)
      (buffer : OverAlignedVertexBuffer) (feature_indices : List Nat)
deriving DecidableEq, Repr

def StoredLayer.coords : StoredLayer → WorldTileCoords
  | .TessellatedLayer c _ _ _ => c

def StoredLayer.layer_name : StoredLayer → String
  | .TessellatedLayer _ n _ _ => n

/-- Modelled from the spec: StoredTile, a coordinate together with the ordered
sequence of stored layers and a status. -/
structure StoredTile where
  coords : WorldTileCoords
  layers : List StoredLayer
  status : TileStatus
deriving DecidableEq, Repr

/-- Modelled from the spec: StoredTile::success builds a tile whose status is
Success from a coordinate and the emitted layers. -/
def StoredTile.success (coords : WorldTileCoords) (layers : List StoredLayer) : StoredTile :=
  ⟨coords, layers, TileStatus.Success⟩

/-- Modelled from the spec: the tile repository maps a tile coordinate to the
latest stored tile, holding at most one entry per coordinate (it is a function
from coordinates to an optional tile, so this invariant is structural). -/
def TileRepository : Type := WorldTileCoords → Option StoredTile

def TileRepository.empty : TileRepository := fun _ => none

/-- Modelled from the spec: `put_tile` inserts under the tile's own
coordinate, overwriting unconditionally (last-write-wins, no merge). -/
def TileRepository.put_tile (repo : TileRepository) (tile : StoredTile) : TileRepository :=
  fun c => if c = tile.coords then some tile else repo c

/-- Modelled from the spec: TileRequest, the input contract to the pipeline —
a coordinate and the set of required layer names (order irrelevant; modelled
as a list queried only through membership). -/
structure TileRequest where
  coords : WorldTileCoords
  layers : List String

/-- Modelled from the spec: the raw bytes fetched from the source, viewed
through the container parse (stage (a) of the pipeline): a sequence of encoded
layers, each carrying its name, its encoded geometry, and whether the
black-box geometry decoder succeeds on it. -/
structure EncodedLayer where
  name : String
  geometry : List Nat
  decodes : Bool
deriving DecidableEq, Repr

/-- Modelled from the spec: tile data as delivered by the source client. -/
def RawTileData : Type := List EncodedLayer

/-- Modelled from the spec: stage (c) of the pipeline, decoding one retained
layer; a layer that fails decoding yields none and is dropped silently. -/
def decodeLayer (l : EncodedLayer) : Option RawLayer :=
  if l.decodes then some ⟨l.name, l.geometry⟩ else none

/-- Modelled from the spec: the pluggable processor interface — any type with
one callback accepting a finished layer (coordinate, buffer, feature indices,
layer metadata).  Rust's `&mut self` receiver is embedded as state passing. -/
structure PipelineProcessor (σ : Type) where
  layer_tesselation_finished :
    σ → WorldTileCoords → OverAlignedVertexBuffer → List Nat → RawLayer → σ

/-- Modelled from the spec: `process(request, rawBytes, processor)` of the
vector-tile pipeline built by build_vector_tile_pipeline — the fixed stage
sequence: (a) parse the container (already reflected in RawTileData),
(b) retain only layers named in request.layers, (c) decode each retained
layer, dropping failures silently, (d) tessellate, (e) invoke the processor
callback once per successfully tessellated layer, in decode order. -/
def Pipeline.process {σ : Type} (pp : PipelineProcessor σ) (request : TileRequest)
    (data : RawTileData) (s : σ) : σ :=
  (data.filter (fun l => decide (l.name ∈ request.layers))).foldl
    (fun st l =>
      match decodeLayer l with
      | some raw =>
        let t := tessellate raw.geometry
        pp.layer_tesselation_finished st request.coords t.1 t.2 raw
      | none => st)
    s

/-- One pipeline emission: the argument tuple handed to the processor
callback. -/
structure Emission where
  coords : WorldTileCoords
  buffer : OverAlignedVertexBuffer
  feature_indices : List Nat
  layer_data : RawLayer
deriving DecidableEq, Repr

/-- The sequence of callback invocations `process` performs, in order: one per
source layer that is both requested and decodable, in container order. -/
def Pipeline.emissions (request : TileRequest) (data : RawTileData) : List Emission :=
  (data.filter (fun l => decide (l.name ∈ request.layers) && l.decodes)).map
    (fun l =>
      let t := tessellate l.geometry
      ⟨request.coords, t.1, t.2, ⟨l.name, l.geometry⟩⟩)

/-- Applying the processor callback to one emission. -/
def Emission.apply {σ : Type} (pp : PipelineProcessor σ) (s : σ) (e : Emission) : σ :=
  pp.layer_tesselation_finished s e.coords e.buffer e.feature_indices e.layer_data

theorem Pipeline.process_eq_foldl_emissions {σ : Type} (pp : PipelineProcessor σ)
    (request : TileRequest) (data : RawTileData) (s : σ) :
    Pipeline.process pp request data s =
      (Pipeline.emissions request data).foldl (Emission.apply pp) s := by
  induction data generalizing s with
  | nil => rfl
  | cons l rest ih =>
    by_cases hreq : l.name ∈ request.layers
    · by_cases hdec : l.decodes = true
      · simp [Pipeline.process, Pipeline.emissions, List.filter, hreq, hdec,
          decodeLayer, Emission.apply] at ih ⊢
        exact ih _
      · simp [Pipeline.process, Pipeline.emissions, List.filter, hreq, hdec,
          decodeLayer] at ih ⊢
        exact ih _
    · simp [Pipeline.process, Pipeline.emissions, List.filter, hreq] at ih ⊢
      exact ih _

/-- Modelled from the spec: the two-state lifecycle wrapper Eventually, a sum
type with Uninitialized and Initialized variants. -/
inductive Eventually (α : Type) where
  | Uninitialized
  | Initialized (value : α)
deriving DecidableEq, Repr

/-- Modelled from the spec: the buffer pool, a reusable vertex/index
allocator; clearing resets the contents without releasing the underlying
allocation (the capacity). -/
structure BufferPool where
  capacity : Nat
  contents : List Nat
deriving DecidableEq, Repr

/-- Modelled from the spec: BufferPool::clear resets the pool contents,
keeping the allocation. -/
def BufferPool.clear (p : BufferPool) : BufferPool := ⟨p.capacity, []⟩

/-- Modelled from the spec: the renderer-owned state observed by the core —
the buffer-pool lifecycle plus the surface output the schedule stages write
(`render` modules are not in the sources). -/
structure RenderState where
  buffer_pool : Eventually BufferPool
  surface_buffer : List Nat
  frame_count : Nat
deriving DecidableEq, Repr

/-- Modelled from the spec: the renderer owning GPU device state. -/
structure Renderer where
  state : RenderState
deriving DecidableEq, Repr

/-- Modelled from the spec: the style is consumed only indirectly (through the
required layer names), so it is kept abstract. -/
structure Style where
  id : Nat
deriving DecidableEq, Repr

/-- Modelled from the spec: the world — viewport transform plus the tile
repository (`world.rs` is not in the sources). -/
structure World where
  window_size : WindowSize
  center : WorldCoords
  zoom : Zoom
  fov_deg : Rat
  tile_repository : TileRepository

/-- Modelled from the spec: World::new stores the viewport parameters and
starts with an empty repository. -/
def World.new (window_size : WindowSize) (center : WorldCoords) (zoom : Zoom)
    (fov_deg : Rat) : World :=
  ⟨window_size, center, zoom, fov_deg, TileRepository.empty⟩

/-- Modelled from the spec: the shared mutable context {style, world,
renderer} passed to every stage. -/
structure MapContext where
  style : Style
  world : World
  renderer : Renderer

/-- Modelled from the spec: RenderStageLabel, the named slots of the frame
schedule. -/
inductive RenderStageLabel where
  | Extract
  | Prepare
  | Queue
  | PhaseSort
  | Render
  | Cleanup
deriving DecidableEq, Repr

/-- Modelled from the spec: a schedule stage — a named transformation of the
shared context; a failing stage is embedded as an `error` result (a panic in
the source), which the schedule does not catch. -/
structure Stage where
  name : String
  run : MapContext → Except String MapContext

/-- Modelled from the spec: a Schedule is an ordered, append-only sequence of
(label, stage) pairs. -/
structure Schedule where
  stages : List (RenderStageLabel × Stage)

def Schedule.default : Schedule := ⟨[]⟩

/-- Modelled from the spec: add_stage appends a stage at a named slot, at the
end of the registration order. -/
def Schedule.add_stage (s : Schedule) (label : RenderStageLabel) (stage : Stage) : Schedule :=
  ⟨s.stages ++ [(label, stage)]⟩

/-- Modelled from the spec: running the registered stages in registration
order, fail-fast — a stage failure aborts the remainder of the frame and
propagates.  The returned list is the names of the stages that were invoked,
in invocation order (the instrumentation the spec suggests for checking
schedule completeness). -/
def Schedule.runStages : List (RenderStageLabel × Stage) → MapContext →
    Except String MapContext × List String
  | [], ctx => (Except.ok ctx, [])
  | p :: rest, ctx =>
    match p.2.run ctx with
    | Except.ok ctx' =>
      let r := Schedule.runStages rest ctx'
      (r.1, p.2.name :: r.2)
    | Except.error e => (Except.error e, [p.2.name])

/-- Modelled from the spec: Schedule::run executes the stages exactly once,
in strict registration order, against the shared context. -/
def Schedule.run (s : Schedule) (ctx : MapContext) : Except String MapContext × List String :=
  Schedule.runStages s.stages ctx

/-- Modelled from the spec: RenderGraphConfigError — an edge referencing an
unknown node, or a duplicate node/edge addition. -/
inductive RenderGraphConfigError where
  | unknownNode (name : String)
  | duplicateEdge (u v : String)
deriving DecidableEq, Repr

/-- Modelled from the spec: the error type of the core — transport failures
and render-graph configuration errors. -/
inductive Error where
  | Fetch (msg : String)
  | GraphConfig (e : RenderGraphConfigError)
deriving DecidableEq, Repr

/-- Modelled from the spec: a render sub-graph — named nodes plus directed
edges, with stable insertion order. -/
structure RenderSubGraph where
  nodes : List String
  edges : List (String × String)
deriving DecidableEq, Repr

/-- Modelled from the spec: add_node registers a named node in the
sub-graph. -/
def RenderSubGraph.add_node (g : RenderSubGraph) (name : String) : RenderSubGraph :=
  ⟨g.nodes ++ [name], g.edges⟩

/-- Modelled from the spec: add_node_edge adds a directed edge (predecessor,
successor); referencing a node identifier not present in the sub-graph is a
configuration error detected immediately at the add call, as is a duplicate
edge. -/
def RenderSubGraph.add_node_edge (g : RenderSubGraph) (u v : String) :
    Except RenderGraphConfigError RenderSubGraph :=
  if u ∉ g.nodes then Except.error (RenderGraphConfigError.unknownNode u)
  else if v ∉ g.nodes then Except.error (RenderGraphConfigError.unknownNode v)
  else if (u, v) ∈ g.edges then Except.error (RenderGraphConfigError.duplicateEdge u v)
  else Except.ok ⟨g.nodes, g.edges ++ [(u, v)]⟩

/-- Modelled from the spec: a RenderGraph is a set of named sub-graphs. -/
structure RenderGraph where
  sub_graphs : List (String × RenderSubGraph)
deriving DecidableEq, Repr

/-- Modelled from the spec: look up a sub-graph by name. -/
def RenderGraph.get_sub_graph (g : RenderGraph) (name : String) : Option RenderSubGraph :=
  (g.sub_graphs.find? (fun p => p.1 == name)).map (fun p => p.2)

/-- Write back a mutated sub-graph: the embedding of the `&mut` reference
returned by get_sub_graph_mut. -/
def RenderGraph.set_sub_graph (g : RenderGraph) (name : String) (sg : RenderSubGraph) :
    RenderGraph :=
  ⟨g.sub_graphs.map (fun p => if p.1 == name then (name, sg) else p)⟩

/-- Name constants of the draw sub-graph (`draw_graph::NAME`,
`draw_graph::node::MAIN_PASS`, `draw_graph::node::COPY`); the render module is
not in the sources, so the string values are representative. -/
def draw_graph.NAME : String := "draw"

def draw_graph.node.MAIN_PASS : String := "main_pass"

def draw_graph.node.COPY : String := "copy"

/-- Modelled from the spec: the factory producing the default render graph —
a draw sub-graph with the predefined main pass node. -/
def create_default_render_graph : Except Error RenderGraph :=
  Except.ok ⟨[(draw_graph.NAME, ⟨[draw_graph.node.MAIN_PASS], []⟩)]⟩

/-- Modelled from the spec: the default stages transform the shared context —
they read the repository and write the renderer; none of them writes the tile
repository.  Each is kept as a simple concrete renderer update. -/
def extract_stage : Stage :=
  ⟨"extract", fun ctx => Except.ok ctx⟩

def prepare_stage : Stage :=
  ⟨"prepare", fun ctx => Except.ok ctx⟩

def queue_stage : Stage :=
  ⟨"queue", fun ctx => Except.ok ctx⟩

def phase_sort_stage : Stage :=
  ⟨"phase_sort", fun ctx => Except.ok ctx⟩

/-- Modelled from the spec: the graph-execution stage runs the frozen render
graph against the renderer once per frame. -/
def graph_runner_stage (graph : RenderGraph) : Stage :=
  ⟨"graph_runner", fun ctx =>
    Except.ok
      { ctx with
        renderer :=
          ⟨⟨ctx.renderer.state.buffer_pool,
            ctx.renderer.state.surface_buffer,
            ctx.renderer.state.frame_count + graph.sub_graphs.length⟩⟩ }⟩

def cleanup_stage : Stage :=
  ⟨"cleanup", fun ctx => Except.ok ctx⟩

/-- Modelled from the spec: register_default_render_stages registers the fixed
built-in stage sequence (preparation, queuing, graph execution, cleanup) on
the schedule, in order. -/
def register_default_render_stages (graph : RenderGraph) (s : Schedule) : Schedule :=
  (((((s.add_stage RenderStageLabel.Extract extract_stage).add_stage
        RenderStageLabel.Prepare prepare_stage).add_stage
        RenderStageLabel.Queue queue_stage).add_stage
        RenderStageLabel.PhaseSort phase_sort_stage).add_stage
        RenderStageLabel.Render (graph_runner_stage graph)).add_stage
        RenderStageLabel.Cleanup cleanup_stage

/-- Modelled from the spec: WriteSurfaceBufferStage (headless/stage.rs is not
in the sources) — writes the rendered surface out of the renderer. -/
def WriteSurfaceBufferStage.default : Stage :=
  ⟨"write_surface_buffer", fun ctx =>
    Except.ok
      { ctx with
        renderer :=
          ⟨⟨ctx.renderer.state.buffer_pool,
            ctx.renderer.state.frame_count :: ctx.renderer.state.surface_buffer,
            ctx.renderer.state.frame_count⟩⟩ }⟩

/-- Modelled from the spec: the source client — the external collaborator
supplying raw tile bytes for a coordinate, or a transport error. -/
structure SourceClient where
  fetch : WorldTileCoords → Except String RawTileData

/-- Modelled from the spec: the kernel bundles the environment services; the
map only uses its source client. -/
structure Kernel where
  source_client : SourceClient

/-- From map.rs lines 125-128: the orchestrator's default processor, which
accumulates the finished layers in order. -/
structure HeadlessPipelineProcessor where
  layers : List StoredLayer
deriving DecidableEq, Repr

def HeadlessPipelineProcessor.default : HeadlessPipelineProcessor := ⟨[]⟩

/-- From map.rs lines 130-144: layer_tesselation_finished pushes a
TessellatedLayer {coords, layer_name = layer_data.name, buffer,
feature_indices} onto the accumulated layers. -/
def HeadlessPipelineProcessor.layer_tesselation_finished
    (p : HeadlessPipelineProcessor) (coords : WorldTileCoords)
    (buffer : OverAlignedVertexBuffer) (feature_indices : List Nat)
    (layer_data : RawLayer) : HeadlessPipelineProcessor :=
  ⟨p.layers ++ [StoredLayer.TessellatedLayer coords layer_data.name buffer feature_indices]⟩

/-- The PipelineProcessor instance of HeadlessPipelineProcessor (map.rs lines
130-145). -/
def headless_pipeline_processor : PipelineProcessor HeadlessPipelineProcessor :=
  ⟨HeadlessPipelineProcessor.layer_tesselation_finished⟩

/-- From map.rs lines 30-35: the headless map bundles the window size, the
kernel, the shared map context and the frame schedule. -/
structure HeadlessMap where
  window_size : WindowSize
  kernel : Kernel
  map_context : MapContext
  schedule : Schedule

/-- From map.rs lines 38-79, with the result of the external factory
create_default_render_graph taken as a parameter (the factory itself is not in
the sources): build the world and schedule, add the COPY node and the
MAIN_PASS → COPY edge to the draw sub-graph, register the default render
stages and append WriteSurfaceBufferStage at the Cleanup slot.  The `?` on the
factory result returns the error; the `.expect` on the sub-graph lookup and
the `.unwrap()` on add_node_edge (line 60, marked `TODO: remove unwrap` in the
source) are panics, embedded as `none`. -/
def HeadlessMap.new_from_graph (graph_result : Except Error RenderGraph) (style : Style)
    (window_size : WindowSize) (renderer : Renderer) (kernel : Kernel) :
    Option (Except Error HeadlessMap) :=
  match graph_result with
  | Except.error e => some (Except.error e)
  | Except.ok graph =>
    let world := World.new window_size (WorldCoords.from2 (TILE_SIZE / 2) (TILE_SIZE / 2))
      Zoom.default 110
    let schedule := Schedule.default
    match graph.get_sub_graph draw_graph.NAME with
    | none => none
    | some dg =>
      let dg := dg.add_node draw_graph.node.COPY
      match dg.add_node_edge draw_graph.node.MAIN_PASS draw_graph.node.COPY with
      | Except.error _ => none
      | Except.ok dg =>
        let graph := graph.set_sub_graph draw_graph.NAME dg
        let schedule := register_default_render_stages graph schedule
        let schedule := schedule.add_stage RenderStageLabel.Cleanup
          WriteSurfaceBufferStage.default
        some (Except.ok ⟨window_size, kernel, ⟨style, world, renderer⟩, schedule⟩)

/-- From map.rs lines 38-79: HeadlessMap::new, applying new_from_graph to the
default render graph produced by the factory. -/
def HeadlessMap.new (style : Style) (window_size : WindowSize) (renderer : Renderer)
    (kernel : Kernel) : Option (Except Error HeadlessMap) :=
  HeadlessMap.new_from_graph create_default_render_graph style window_size renderer kernel

/-- From map.rs lines 81-92: render_tile clears the buffer pool if it is
initialized, overwrites the repository entry with the tile, and runs the
schedule once against the shared context.  A stage panic during the schedule
run unwinds past the function, embedded as `none`; the function body builds no
error value, so the returned result is Ok(()). -/
def HeadlessMap.render_tile (m : HeadlessMap) (tile : StoredTile) :
    Option (Except Error Unit × HeadlessMap) :=
  let context := m.map_context
  let context :=
    match context.renderer.state.buffer_pool with
    | Eventually.Initialized pool =>
      { context with
        renderer :=
          ⟨⟨Eventually.Initialized pool.clear,
            context.renderer.state.surface_buffer,
            context.renderer.state.frame_count⟩⟩ }
    | Eventually.Uninitialized => context
  let context :=
    { context with
      world :=
        { context.world with
          tile_repository := context.world.tile_repository.put_tile tile } }
  match (m.schedule.run context).1 with
  | Except.ok ctx' => some (Except.ok (), { m with map_context := ctx' })
  | Except.error _ => none

/-- From map.rs lines 106-111: the TileRequest handed to the pipeline carries
WorldTileCoords::default() as its coordinate and the source_layers argument as
its required layer names. -/
def HeadlessMap.pipeline_request (source_layers : List String) : TileRequest :=
  ⟨WorldTileCoords.default, source_layers⟩

/-- From map.rs lines 94-122: fetch_tile asks the source client for the raw
data (the `?` turns a transport error into the function's error result),
drives the vector-tile pipeline over it with a fresh
HeadlessPipelineProcessor, and returns a success StoredTile at the requested
coordinate holding the processor's accumulated layers.  The receiver is a
shared reference (`&self`), embedded as state passing that returns the map
unchanged. -/
def HeadlessMap.fetch_tile (m : HeadlessMap) (coords : WorldTileCoords)
    (source_layers : List String) : Except Error StoredTile × HeadlessMap :=
  match m.kernel.source_client.fetch coords with
  | Except.error e => (Except.error (Error.Fetch e), m)
  | Except.ok data =>
    let processor := HeadlessPipelineProcessor.default
    let processor := Pipeline.process headless_pipeline_processor
      (HeadlessMap.pipeline_request source_layers) data processor
    (Except.ok (StoredTile.success coords processor.layers), m)

/-- Step (1) of renderTile as the spec describes it: if the buffer-pool state
is Initialized, issue a clear on it (keeping the allocation); if
Uninitialized, this is a no-op. -/
def clearIfInitialized (ctx : MapContext) : MapContext :=
  match ctx.renderer.state.buffer_pool with
  | Eventually.Initialized pool =>
    { ctx with
      renderer :=
        ⟨⟨Eventually.Initialized pool.clear,
          ctx.renderer.state.surface_buffer,
          ctx.renderer.state.frame_count⟩⟩ }
  | Eventually.Uninitialized => ctx

/-- Step (2) of renderTile as the spec describes it: unconditionally overwrite
the repository entry for the tile's coordinate. -/
def overwriteRepositoryEntry (ctx : MapContext) (tile : StoredTile) : MapContext :=
  { ctx with
    world :=
      { ctx.world with
        tile_repository := ctx.world.tile_repository.put_tile tile } }

/-- render_tile is step (3), one schedule run, applied after steps (1) and
(2); definitional unfolding shared by several proofs. -/
theorem HeadlessMap.render_tile_eq_steps (m : HeadlessMap) (tile : StoredTile) :
    m.render_tile tile =
      match (m.schedule.run (overwriteRepositoryEntry (clearIfInitialized m.map_context) tile)).1 with
      | Except.ok ctx' => some (Except.ok (), { m with map_context := ctx' })
      | Except.error _ => none := rfl

/-- The stored layer that the headless processor pushes for one emission. -/
def Emission.toStoredLayer (e : Emission) : StoredLayer :=
  StoredLayer.TessellatedLayer e.coords e.layer_data.name e.buffer e.feature_indices

theorem headless_foldl_emissions (es : List Emission) (p : HeadlessPipelineProcessor) :
    es.foldl (Emission.apply headless_pipeline_processor) p =
      ⟨p.layers ++ es.map Emission.toStoredLayer⟩ := by
  induction es generalizing p with
  | nil => simp
  | cons e rest ih =>
    simp only [List.foldl_cons, List.map_cons, ih]
    simp [Emission.apply, headless_pipeline_processor,
      HeadlessPipelineProcessor.layer_tesselation_finished, Emission.toStoredLayer]

/-- A stage that never writes the tile repository on success. -/
def Stage.preserves_repository (st : Stage) : Prop :=
  ∀ ctx ctx', st.run ctx = Except.ok ctx' →
    ctx'.world.tile_repository = ctx.world.tile_repository

theorem Schedule.runStages_ok_trace (l : List (RenderStageLabel × Stage)) :
    ∀ (ctx ctx' : MapContext) (tr : List String),
      Schedule.runStages l ctx = (Except.ok ctx', tr) →
      tr = l.map (fun p => p.2.name) := by
  induction l with
  | nil =>
    intro ctx ctx' tr h
    simp only [Schedule.runStages, Prod.mk.injEq] at h
    simp [← h.2]
  | cons p rest ih =>
    intro ctx ctx' tr h
    cases hrun : p.2.run ctx with
    | error e =>
      simp only [Schedule.runStages, hrun, Prod.mk.injEq] at h
      exact absurd h.1 (by simp)
    | ok c =>
      simp only [Schedule.runStages, hrun, Prod.mk.injEq] at h
      have hrec := ih c ctx' (Schedule.runStages rest c).2
        (Prod.ext h.1 rfl)
      simp [← h.2, hrec]

theorem Schedule.runStages_ok_repository (l : List (RenderStageLabel × Stage)) :
    ∀ (ctx c : MapContext),
      (∀ p ∈ l, p.2.preserves_repository) →
      (Schedule.runStages l ctx).1 = Except.ok c →
      c.world.tile_repository = ctx.world.tile_repository := by
  induction l with
  | nil =>
    intro ctx c _ h
    simp only [Schedule.runStages] at h
    cases h
    rfl
  | cons p rest ih =>
    intro ctx c hpres h
    cases hrun : p.2.run ctx with
    | error e => simp only [Schedule.runStages, hrun] at h; cases h
    | ok mid =>
      simp only [Schedule.runStages, hrun] at h
      have hrest := ih mid c (fun q hq => hpres q (List.mem_cons_of_mem p hq)) h
      have hhead := hpres p (List.mem_cons_self p rest) ctx mid hrun
      rw [hrest, hhead]

theorem clearIfInitialized_world (ctx : MapContext) :
    (clearIfInitialized ctx).world = ctx.world := by
  unfold clearIfInitialized
  cases ctx.renderer.state.buffer_pool <;> rfl

/-! Concrete fixtures used by the witnesses. -/

def test_style : Style := ⟨0⟩

def test_window_size : WindowSize := ⟨256, 256⟩

def test_renderer_uninit : Renderer := ⟨⟨Eventually.Uninitialized, [], 0⟩⟩

def test_pool : BufferPool := ⟨8, [1, 2]⟩

def test_renderer_init : Renderer := ⟨⟨Eventually.Initialized test_pool, [], 0⟩⟩

def test_data : RawTileData :=
  [⟨"water", [1, 2, 3, 4], true⟩, ⟨"forest", [5], true⟩, ⟨"roads", [6, 7], false⟩]

def test_kernel_ok : Kernel := ⟨⟨fun _ => Except.ok test_data⟩⟩

def test_kernel_err : Kernel := ⟨⟨fun _ => Except.error "network down"⟩⟩

def test_world : World :=
  World.new test_window_size (WorldCoords.from2 256 256) Zoom.default 110

def test_ctx_uninit : MapContext := ⟨test_style, test_world, test_renderer_uninit⟩

def test_ctx_init : MapContext := ⟨test_style, test_world, test_renderer_init⟩

def test_map_ok : HeadlessMap := ⟨test_window_size, test_kernel_ok, test_ctx_uninit, Schedule.default⟩

def test_map_init : HeadlessMap :=
  ⟨test_window_size, test_kernel_ok, test_ctx_init, Schedule.default⟩

def test_map_err : HeadlessMap :=
  ⟨test_window_size, test_kernel_err, test_ctx_uninit, Schedule.default⟩

def test_coords : WorldTileCoords := ⟨1, 2, 3⟩

def test_tileA : StoredTile :=
  ⟨test_coords, [StoredLayer.TessellatedLayer test_coords "old" ⟨[9], 4⟩ [0]], TileStatus.Pending⟩

def test_tileB : StoredTile := StoredTile.success test_coords []

/-! The claims. -/

/-- Claim C6: performing the clear-if-initialized step (the buffer-pool step
of render_tile) on a context whose buffer-pool state is Uninitialized raises
no error (the operation is total) and leaves the whole context — in
particular the buffer-pool state, still Uninitialized — unchanged. -/
theorem clear_if_initialized_noop_on_uninitialized (ctx : MapContext)
    (h : ctx.renderer.state.buffer_pool = Eventually.Uninitialized) :
    clearIfInitialized ctx = ctx ∧
    (clearIfInitialized ctx).renderer.state.buffer_pool = Eventually.Uninitialized := by
  have h1 : clearIfInitialized ctx = ctx := by
    unfold clearIfInitialized
    rw [h]
  exact ⟨h1, by rw [h1, h]⟩

theorem clear_if_initialized_noop_on_uninitialized_witness :
    clearIfInitialized test_ctx_uninit = test_ctx_uninit ∧
    (clearIfInitialized test_ctx_uninit).renderer.state.buffer_pool =
      Eventually.Uninitialized :=
  clear_if_initialized_noop_on_uninitialized test_ctx_uninit rfl

/-- Claim C7: process(request, bytes, processor) invokes the processor
callback exactly once per source layer whose name is in request.layers and
which decodes successfully, in container order; a layer absent from the
request, or failing to decode, triggers no callback — and the run is total,
so no error is raised for them.  Stated as: running the pipeline equals
folding the callback over exactly the retained-and-decodable layers. -/
theorem process_invokes_processor_once_per_retained_layer {σ : Type}
    (pp : PipelineProcessor σ) (request : TileRequest) (data : RawTileData) (s : σ) :
    Pipeline.process pp request data s =
      ((data.filter (fun l => decide (l.name ∈ request.layers) && l.decodes)).map
        (fun l => Emission.mk request.coords (tessellate l.geometry).1
          (tessellate l.geometry).2 ⟨l.name, l.geometry⟩)).foldl (Emission.apply pp) s := by
  rw [Pipeline.process_eq_foldl_emissions]
  rfl

/-- Claim C10: whenever render_tile returns normally, its result value is
Ok(()); the body constructs no error value, so a schedule-stage failure (a
panic, embedded as none) is never surfaced as an error result. -/
theorem render_tile_never_returns_error (m : HeadlessMap) (tile : StoredTile)
    (r : Except Error Unit × HeadlessMap) (h : m.render_tile tile = some r) :
    r.1 = Except.ok () := by
  rw [HeadlessMap.render_tile_eq_steps] at h
  cases hrun : (m.schedule.run
      (overwriteRepositoryEntry (clearIfInitialized m.map_context) tile)).1 with
  | error e => simp only [hrun] at h; cases h
  | ok c =>
    simp only [hrun] at h
    injection h with h'
    rw [← h']

def c10_result : Except Error Unit × HeadlessMap :=
  (Except.ok (),
    { test_map_ok with
      map_context := overwriteRepositoryEntry (clearIfInitialized test_map_ok.map_context)
        test_tileA })

theorem render_tile_never_returns_error_witness : c10_result.1 = Except.ok () :=
  render_tile_never_returns_error test_map_ok test_tileA c10_result rfl

/-- Claim C3: render_tile performs exactly three steps in order — (1) the
buffer pool is cleared when Initialized and untouched when Uninitialized,
(2) the repository entry for the tile's coordinate is unconditionally
overwritten with the tile, (3) the frame schedule is run exactly once against
the shared context resulting from the first two steps, and its outcome is the
function's outcome. -/
theorem render_tile_performs_clear_put_run (m : HeadlessMap) (tile : StoredTile) :
    (m.render_tile tile =
      match (m.schedule.run
          (overwriteRepositoryEntry (clearIfInitialized m.map_context) tile)).1 with
      | Except.ok ctx' => some (Except.ok (), { m with map_context := ctx' })
      | Except.error _ => none) ∧
    (m.map_context.renderer.state.buffer_pool = Eventually.Uninitialized →
      clearIfInitialized m.map_context = m.map_context) ∧
    (∀ pool, m.map_context.renderer.state.buffer_pool = Eventually.Initialized pool →
      (clearIfInitialized m.map_context).renderer.state.buffer_pool =
        Eventually.Initialized pool.clear ∧
      (clearIfInitialized m.map_context).world = m.map_context.world) ∧
    (overwriteRepositoryEntry (clearIfInitialized m.map_context) tile).world.tile_repository
      tile.coords = some tile := by
  refine ⟨HeadlessMap.render_tile_eq_steps m tile, ?_, ?_, ?_⟩
  · intro h
    unfold clearIfInitialized
    rw [h]
  · intro pool h
    constructor
    · unfold clearIfInitialized
      rw [h]
    · unfold clearIfInitialized
      rw [h]
  · simp [overwriteRepositoryEntry, TileRepository.put_tile]

theorem render_tile_performs_clear_put_run_witness :
    clearIfInitialized test_ctx_uninit = test_ctx_uninit ∧
    (clearIfInitialized test_ctx_init).renderer.state.buffer_pool =
      Eventually.Initialized test_pool.clear ∧
    (overwriteRepositoryEntry (clearIfInitialized test_ctx_uninit)
      test_tileA).world.tile_repository test_tileA.coords = some test_tileA :=
  ⟨(render_tile_performs_clear_put_run test_map_ok test_tileA).2.1 rfl,
   ((render_tile_performs_clear_put_run test_map_init test_tileA).2.2.1 test_pool rfl).1,
   (render_tile_performs_clear_put_run test_map_ok test_tileA).2.2.2⟩

/-- Claim C4: fetch_tile never mutates the map state — in particular the tile
repository — in any outcome, and when the source fetch fails with a transport
error the call returns that error as a FetchError. -/
theorem fetch_tile_error_and_no_repository_mutation (m : HeadlessMap)
    (coords : WorldTileCoords) (source_layers : List String) :
    (m.fetch_tile coords source_layers).2 = m ∧
    (∀ e, m.kernel.source_client.fetch coords = Except.error e →
      (m.fetch_tile coords source_layers).1 = Except.error (Error.Fetch e)) := by
  constructor
  · cases h : m.kernel.source_client.fetch coords <;>
      simp [HeadlessMap.fetch_tile, h]
  · intro e he
    simp [HeadlessMap.fetch_tile, he]

theorem fetch_tile_error_and_no_repository_mutation_witness :
    (test_map_err.fetch_tile test_coords ["water"]).2 = test_map_err ∧
    (test_map_err.fetch_tile test_coords ["water"]).1 =
      Except.error (Error.Fetch "network down") :=
  ⟨(fetch_tile_error_and_no_repository_mutation test_map_err test_coords ["water"]).1,
   (fetch_tile_error_and_no_repository_mutation test_map_err test_coords ["water"]).2
     "network down" rfl⟩

/-- Claim C2: when the source fetch succeeds, fetch_tile returns a StoredTile
whose coordinate is the coords argument, whose status is Success, and whose
layer sequence is exactly the sequence the processor callback received —
the pipeline's emissions — in callback order. -/
theorem fetch_tile_success_returns_emitted_layers (m : HeadlessMap)
    (coords : WorldTileCoords) (source_layers : List String) (data : RawTileData)
    (h : m.kernel.source_client.fetch coords = Except.ok data) :
    (m.fetch_tile coords source_layers).1 =
      Except.ok (StoredTile.success coords
        ((Pipeline.emissions (HeadlessMap.pipeline_request source_layers) data).map
          Emission.toStoredLayer)) := by
  simp only [HeadlessMap.fetch_tile, h]
  rw [Pipeline.process_eq_foldl_emissions, headless_foldl_emissions]
  rfl

theorem fetch_tile_success_returns_emitted_layers_witness :
    (test_map_ok.fetch_tile test_coords ["water", "roads"]).1 =
      Except.ok (StoredTile.success test_coords
        ((Pipeline.emissions (HeadlessMap.pipeline_request ["water", "roads"])
          test_data).map Emission.toStoredLayer)) :=
  fetch_tile_success_returns_emitted_layers test_map_ok test_coords ["water", "roads"]
    test_data rfl

/-- Claim C9: the TileRequest handed to the pipeline carries
WorldTileCoords.default, not the coords argument, while the tile returned to
the caller carries the coords argument; consequently every layer the
processor callback stored carries the default coordinate, independent of the
coordinate being fetched. -/
theorem pipeline_request_uses_default_coords (m : HeadlessMap)
    (coords : WorldTileCoords) (source_layers : List String) (tile : StoredTile)
    (h : (m.fetch_tile coords source_layers).1 = Except.ok tile) :
    (HeadlessMap.pipeline_request source_layers).coords = WorldTileCoords.default ∧
    tile.coords = coords ∧
    ∀ l ∈ tile.layers, l.coords = WorldTileCoords.default := by
  cases hf : m.kernel.source_client.fetch coords with
  | error e => simp [HeadlessMap.fetch_tile, hf] at h
  | ok data =>
    simp only [HeadlessMap.fetch_tile, hf] at h
    injection h with h'
    refine ⟨rfl, ?_, ?_⟩
    · rw [← h']
      rfl
    · intro l hl
      rw [← h'] at hl
      simp only [StoredTile.success] at hl
      rw [Pipeline.process_eq_foldl_emissions, headless_foldl_emissions] at hl
      simp only [HeadlessPipelineProcessor.default, List.nil_append] at hl
      simp only [Pipeline.emissions, List.map_map, List.mem_map] at hl
      obtain ⟨el, _, hel⟩ := hl
      rw [← hel]
      rfl

def c9_fetched_tile : StoredTile :=
  StoredTile.success test_coords
    ((Pipeline.emissions (HeadlessMap.pipeline_request ["water"]) test_data).map
      Emission.toStoredLayer)

theorem pipeline_request_uses_default_coords_witness :
    (HeadlessMap.pipeline_request ["water"]).coords = WorldTileCoords.default ∧
    c9_fetched_tile.coords = test_coords ∧
    ∀ l ∈ c9_fetched_tile.layers, l.coords = WorldTileCoords.default :=
  pipeline_request_uses_default_coords test_map_ok test_coords ["water"]
    c9_fetched_tile rfl

/-- Claim C8: one call to run executes each registered stage exactly once, in
strict registration order — the produced invocation trace is exactly the
registration list — and for a map built by HeadlessMap::new the registration
order is the default stages in the order registered followed by the
WriteSurfaceBufferStage appended at the Cleanup slot. -/
theorem schedule_runs_stages_once_in_order :
    (∀ (s : Schedule) (ctx ctx' : MapContext) (tr : List String),
      s.run ctx = (Except.ok ctx', tr) → tr = s.stages.map (fun p => p.2.name)) ∧
    (∀ (style : Style) (ws : WindowSize) (renderer : Renderer) (kernel : Kernel)
      (m : HeadlessMap),
      HeadlessMap.new style ws renderer kernel = some (Except.ok m) →
      m.schedule.stages.map (fun p => p.2.name) =
        ["extract", "prepare", "queue", "phase_sort", "graph_runner", "cleanup",
          "write_surface_buffer"]) := by
  constructor
  · intro s ctx ctx' tr h
    exact Schedule.runStages_ok_trace s.stages ctx ctx' tr h
  · intro style ws renderer kernel m h
    have h1 := Option.some.inj h
    have h2 := Except.ok.inj h1
    rw [← h2]
    rfl

def headless_test_map : HeadlessMap :=
  match HeadlessMap.new test_style test_window_size test_renderer_uninit test_kernel_ok with
  | some (Except.ok m) => m
  | _ => test_map_ok

theorem schedule_runs_stages_once_in_order_witness :
    (["extract"] = ([(RenderStageLabel.Extract, extract_stage)] : List (RenderStageLabel × Stage)).map
      (fun p => p.2.name)) ∧
    headless_test_map.schedule.stages.map (fun p => p.2.name) =
      ["extract", "prepare", "queue", "phase_sort", "graph_runner", "cleanup",
        "write_surface_buffer"] :=
  ⟨schedule_runs_stages_once_in_order.1 ⟨[(RenderStageLabel.Extract, extract_stage)]⟩
      test_ctx_uninit test_ctx_uninit ["extract"] rfl,
   schedule_runs_stages_once_in_order.2 test_style test_window_size test_renderer_uninit
      test_kernel_ok headless_test_map rfl⟩

/-- Claim C5: when the schedule's stages never write the tile repository (the
spec's data flow: stages read the repository and write the renderer), running
render_tile with tileA and then render_tile with tileB leaves the repository
entry at tileB's coordinate equal to tileB, regardless of tileA; and
insertion is last-write-wins with no merge — put_tile maps the tile's own
coordinate to the new tile and leaves every other coordinate unchanged (the
repository is a map from coordinates, so it holds at most one entry per
coordinate structurally). -/
theorem render_tile_last_write_wins (m : HeadlessMap) (tileA tileB : StoredTile)
    (r1 r2 : Except Error Unit) (m1 m2 : HeadlessMap)
    (hpres : ∀ p ∈ m.schedule.stages, p.2.preserves_repository)
    (h1 : m.render_tile tileA = some (r1, m1))
    (h2 : m1.render_tile tileB = some (r2, m2)) :
    m2.map_context.world.tile_repository tileB.coords = some tileB ∧
    (∀ (repo : TileRepository) (t : StoredTile),
      (repo.put_tile t) t.coords = some t ∧
      ∀ c, c ≠ t.coords → (repo.put_tile t) c = repo c) := by
  rw [HeadlessMap.render_tile_eq_steps] at h1
  cases ha : (m.schedule.run
      (overwriteRepositoryEntry (clearIfInitialized m.map_context) tileA)).1 with
  | error e => simp only [ha] at h1; cases h1
  | ok cA =>
    simp only [ha] at h1
    injection h1 with h1'
    injection h1' with hr1 hm1
    rw [← hm1] at h2
    rw [HeadlessMap.render_tile_eq_steps] at h2
    dsimp only at h2
    cases hb : (m.schedule.run
        (overwriteRepositoryEntry (clearIfInitialized cA) tileB)).1 with
    | error e => simp only [hb] at h2; cases h2
    | ok cB =>
      simp only [hb] at h2
      injection h2 with h2'
      injection h2' with hr2 hm2
      constructor
      · rw [← hm2]
        dsimp only
        have hrepoB := Schedule.runStages_ok_repository m.schedule.stages
          (overwriteRepositoryEntry (clearIfInitialized cA) tileB) cB hpres hb
        rw [hrepoB]
        simp [overwriteRepositoryEntry, TileRepository.put_tile]
      · intro repo t
        exact ⟨by simp [TileRepository.put_tile],
          fun c hc => by simp [TileRepository.put_tile, hc]⟩

def c5_m1 : HeadlessMap :=
  { test_map_ok with
    map_context := overwriteRepositoryEntry (clearIfInitialized test_map_ok.map_context)
      test_tileA }

def c5_m2 : HeadlessMap :=
  { c5_m1 with
    map_context := overwriteRepositoryEntry (clearIfInitialized c5_m1.map_context)
      test_tileB }

theorem render_tile_last_write_wins_witness :
    c5_m2.map_context.world.tile_repository test_tileB.coords = some test_tileB :=
  (render_tile_last_write_wins test_map_ok test_tileA test_tileB (Except.ok ())
    (Except.ok ()) c5_m1 c5_m2
    (by intro p hp; exact absurd hp (List.not_mem_nil p)) rfl rfl).1

def bad_render_graph : RenderGraph := ⟨[(draw_graph.NAME, ⟨[], []⟩)]⟩

/-- Claim C1 (code bug): the claim says that when adding the render-graph
edge references a node identifier not present in the sub-graph,
HeadlessMap::new surfaces the RenderGraphConfigError as the function's error
result.  In the code the error of add_node_edge is consumed by .unwrap()
(line 60, marked TODO: remove unwrap), i.e. a panic: on a default graph whose
draw sub-graph lacks the main-pass node, add_node_edge returns the
unknown-node configuration error, yet construction evaluates to the panic
outcome (none) and not to an error result.  No map value is returned, but no
error result is returned either. -/
theorem new_edge_error_panics_not_error_result :
    (((⟨[], []⟩ : RenderSubGraph).add_node draw_graph.node.COPY).add_node_edge
        draw_graph.node.MAIN_PASS draw_graph.node.COPY =
      Except.error (RenderGraphConfigError.unknownNode draw_graph.node.MAIN_PASS)) ∧
    HeadlessMap.new_from_graph (Except.ok bad_render_graph) test_style test_window_size
      test_renderer_uninit test_kernel_ok = none := by
  exact ⟨rfl, rfl⟩

end Maplibre
